import Mathlib

/-!
Verification development for the Apollo static-obstacle path-decision engine
(`modules/planning/tasks/path_decider/path_decider.cc`).

The geometry lives in the curvilinear (Frenet) frame; all inputs that the C++
code reads as `double` are modelled as rationals (`ℚ`), and the one
transcendental value produced by the code — the square root inside
`MinimumRadiusStopDistance` — is modelled in `ℝ`.  A C++ `double` that is NaN
(`std::sqrt` of a negative radicand, which then propagates through `+`,
`std::min` and `std::max`) is modelled as `Option.none`.
-/

namespace Apollo

/-- One sample of the frenet-frame path: longitudinal coordinate `s`,
lateral offset `l` (`FrenetFramePoint`). -/
structure FrenetFramePoint where
  s : ℚ
  l : ℚ
deriving DecidableEq

/-- An axis-aligned footprint box in the curvilinear frame (`SLBoundary`). -/
structure SLBoundary where
  start_s : ℚ
  end_s : ℚ
  start_l : ℚ
  end_l : ℚ
deriving DecidableEq

/-- `StBoundary::BoundaryType`. -/
inductive BoundaryType
  | UNKNOWN
  | STOP
  | FOLLOW
  | YIELD
  | OVERTAKE
  | KEEP_CLEAR
deriving DecidableEq

/-- The two `StopReasonCode` values produced by `GenerateObjectStopDecision`
(the proto has further values; only these two are reachable here). -/
inductive StopReasonCode
  | STOP_REASON_OBSTACLE
  | STOP_REASON_DESTINATION
deriving DecidableEq

/-- `ObjectNudge::Type` (`NO_NUDGE` exists in the proto but is never set here). -/
inductive NudgeType
  | LEFT_NUDGE
  | RIGHT_NUDGE
  | NO_NUDGE
deriving DecidableEq

/-- `ObjectNudge`: nudge direction and signed lateral offset `distance_l`. -/
structure ObjectNudge where
  type : NudgeType
  distance_l : ℚ
deriving DecidableEq

/-- A reference-line point `(x, y, heading)` returned by
`ReferenceLine::GetReferencePoint`. -/
structure ReferencePoint where
  x : ℝ
  y : ℝ
  heading : ℝ

/-- `ObjectStop`: stop reason, signed longitudinal offset `distance_s`
(negative: the stop point precedes the obstacle), and the stop point with
heading.  `none` models a NaN-valued `double` field (and the garbage
reference point obtained by evaluating the reference line at a NaN
coordinate). -/
structure ObjectStop where
  reason_code : StopReasonCode
  distance_s : Option ℝ
  stop_point : Option ReferencePoint

/-- `ObjectDecisionType`: the per-axis decision variants produced by the
path decider (`ignore` / `stop` / `nudge`). -/
inductive ObjectDecisionType
  | ignore
  | stop (stop : ObjectStop)
  | nudge (nudge : ObjectNudge)

/-- A `PathObstacle` together with its two decision slots from the shared
decision ledger (`PathDecision`): obstacle identity, staticness, st-boundary
type, perception SL boundary, and the longitudinal/lateral decision slots
(`none` = no decision set yet). -/
structure PathObstacle where
  id : String
  isStatic : Bool
  boundaryType : BoundaryType
  perceptionSlBoundary : SLBoundary
  longitudinalDecision : Option ObjectDecisionType
  lateralDecision : Option ObjectDecisionType

/-- The configuration constants read by the path decider: vehicle parameters
(`vehicle_param().width()`, `VehicleConfigHelper::MinSafeTurnRadius()`) and
the gflags used in `path_decider.cc`. -/
structure Config where
  vehicleWidth : ℚ
  minTurnRadius : ℚ
  lateralIgnoreBuffer : ℚ
  staticDecisionNudgeLBuffer : ℚ
  enableNudgeDecision : Bool
  nudgeDistanceObstacle : ℚ
  destinationObstacleId : String
  stopDistanceDestination : ℚ
  maxStopDistanceObstacle : ℚ
  minStopDistanceObstacle : ℚ

/-- `HasLongitudinalDecision() && LongitudinalDecision().has_ignore()`
(idem for the lateral slot): the slot is set and holds `Ignore`. -/
def decisionIsIgnore : Option ObjectDecisionType → Bool
  | some ObjectDecisionType.ignore => true
  | _ => false

/-- `HasLongitudinalDecision() && LongitudinalDecision().has_stop()`:
the slot is set and holds a `Stop`. -/
def decisionIsStop : Option ObjectDecisionType → Bool
  | some (ObjectDecisionType.stop _) => true
  | _ => false

/-- Modelled from the spec: `FrenetFramePath::EvaluateByS` (§4.1), whose
implementation is not part of the supplied sources.  Returns the lateral
offset at `s` by linear interpolation between the two bracketing samples and
clamps to the nearest endpoint's `l` outside `[first.s, last.s]`. -/
def EvaluateByS : List FrenetFramePoint → ℚ → ℚ
  | [], _ => 0
  | [p], _ => p.l
  | p :: q :: rest, s =>
    if s ≤ p.s then p.l
    else if s ≤ q.s then p.l + (q.l - p.l) * (s - p.s) / (q.s - p.s)
    else EvaluateByS (q :: rest) s

/-- `frenet_points.front().s()` (paths are only inspected when non-empty;
the `[]` clause is an arbitrary total-function default). -/
def frontS : List FrenetFramePoint → ℚ
  | [] => 0
  | p :: _ => p.s

/-- `frenet_points.back().s()` (same remark as `frontS`). -/
def backS : List FrenetFramePoint → ℚ
  | [] => 0
  | [p] => p.s
  | _ :: q :: rest => backS (q :: rest)

namespace PathDecider

/-- `half_width + FLAGS_lateral_ignore_buffer` (line 84). -/
def lateralRadius (cfg : Config) : ℚ :=
  cfg.vehicleWidth / 2 + cfg.lateralIgnoreBuffer

/-- `half_width + FLAGS_static_decision_nudge_l_buffer` (lines 86–87). -/
def lateralStopRadius (cfg : Config) : ℚ :=
  cfg.vehicleWidth / 2 + cfg.staticDecisionNudgeLBuffer

/-- Lines 164–173 of `MinimumRadiusStopDistance`: the worst-case lateral
separation between obstacle and vehicle edges, clamped below by the vehicle
width and above by vehicle width plus the obstacle's own lateral extent. -/
def lateralDiff (cfg : Config) (adc : SLBoundary) (ob : PathObstacle) : ℚ :=
  min
    (max
      (max |ob.perceptionSlBoundary.start_l - adc.end_l|
           |ob.perceptionSlBoundary.end_l - adc.start_l|)
      cfg.vehicleWidth)
    (cfg.vehicleWidth + ob.perceptionSlBoundary.end_l -
      ob.perceptionSlBoundary.start_l)

/-- The expression under the square root on lines 174–176:
`R² − (R − lateral_diff)²`. -/
def radicand (cfg : Config) (adc : SLBoundary) (ob : PathObstacle) : ℚ :=
  cfg.minTurnRadius * cfg.minTurnRadius -
    (cfg.minTurnRadius - lateralDiff cfg adc ob) *
      (cfg.minTurnRadius - lateralDiff cfg adc ob)

/-- `PathDecider::MinimumRadiusStopDistance` (lines 159–181).  `adc` is
`reference_line_info_->AdcSlBoundary()`.  When the radicand is negative the
C++ `std::sqrt` yields NaN, which survives the `+ 0.5` buffer and both
`std::min`/`std::max` clamps (a comparison with NaN is false, so each clamp
returns its NaN first argument); this NaN outcome is modelled as `none`. -/
noncomputable def MinimumRadiusStopDistance (cfg : Config) (adc : SLBoundary)
    (ob : PathObstacle) : Option ℝ :=
  if radicand cfg adc ob < 0 then none
  else some (max (cfg.minStopDistanceObstacle : ℝ)
    (min (cfg.maxStopDistanceObstacle : ℝ)
      (Real.sqrt ((radicand cfg adc ob : ℚ) : ℝ) + 1/2)))

/-- `PathDecider::GenerateObjectStopDecision` (lines 183–207).  `refLine`
abstracts `reference_line_info_->reference_line().GetReferencePoint`
(external to the supplied sources). -/
noncomputable def GenerateObjectStopDecision (cfg : Config)
    (refLine : ℝ → ReferencePoint) (adc : SLBoundary) (ob : PathObstacle) :
    ObjectStop :=
  let rd : StopReasonCode × Option ℝ :=
    if ob.id = cfg.destinationObstacleId then
      (StopReasonCode.STOP_REASON_DESTINATION,
        some (cfg.stopDistanceDestination : ℝ))
    else
      (StopReasonCode.STOP_REASON_OBSTACLE,
        MinimumRadiusStopDistance cfg adc ob)
  { reason_code := rd.1
    distance_s := rd.2.map (fun sd => -sd)
    stop_point := rd.2.map (fun sd =>
      refLine ((ob.perceptionSlBoundary.start_s : ℝ) - sd)) }

/-- The body of the obstacle loop of `MakeStaticObstacleDecision`
(lines 89–154), as a function of one ledger record.  The writes through
`PathDecision::AddLongitudinalDecision` / `AddLateralDecision` (external to
the supplied sources) are modelled from the spec (§6): `add_decision` sets
the named axis slot of the obstacle's record. -/
noncomputable def decideObstacle (cfg : Config) (refLine : ℝ → ReferencePoint)
    (adc : SLBoundary) (path : List FrenetFramePoint) (ob : PathObstacle) :
    PathObstacle :=
  if ob.isStatic = false then ob
  else if decisionIsIgnore ob.longitudinalDecision = true ∧
      decisionIsIgnore ob.lateralDecision = true then ob
  else if decisionIsStop ob.longitudinalDecision = true then ob
  else if ob.boundaryType = BoundaryType.KEEP_CLEAR then ob
  else if ob.perceptionSlBoundary.start_s < frontS path ∨
      backS path < ob.perceptionSlBoundary.start_s then
    { ob with longitudinalDecision := some ObjectDecisionType.ignore
              lateralDecision := some ObjectDecisionType.ignore }
  else if EvaluateByS path ob.perceptionSlBoundary.start_s - lateralRadius cfg >
        ob.perceptionSlBoundary.end_l ∨
      EvaluateByS path ob.perceptionSlBoundary.start_s + lateralRadius cfg <
        ob.perceptionSlBoundary.start_l then
    { ob with lateralDecision := some ObjectDecisionType.ignore }
  else if EvaluateByS path ob.perceptionSlBoundary.start_s -
        lateralStopRadius cfg < ob.perceptionSlBoundary.end_l ∧
      EvaluateByS path ob.perceptionSlBoundary.start_s +
        lateralStopRadius cfg > ob.perceptionSlBoundary.start_l then
    { ob with longitudinalDecision := some (ObjectDecisionType.stop
        (GenerateObjectStopDecision cfg refLine adc ob)) }
  else if cfg.enableNudgeDecision = true ∧
      EvaluateByS path ob.perceptionSlBoundary.start_s -
        lateralStopRadius cfg > ob.perceptionSlBoundary.end_l then
    { ob with lateralDecision := some (ObjectDecisionType.nudge
        ⟨NudgeType.LEFT_NUDGE, cfg.nudgeDistanceObstacle⟩) }
  else if cfg.enableNudgeDecision = true then
    { ob with lateralDecision := some (ObjectDecisionType.nudge
        ⟨NudgeType.RIGHT_NUDGE, -cfg.nudgeDistanceObstacle⟩) }
  else ob

/-- `PathDecider::MakeStaticObstacleDecision` (lines 71–157): fails on an
empty path, otherwise runs the obstacle loop over the ledger.  The loop
writes only to the record of the obstacle currently being examined, so it is
the per-record `decideObstacle` mapped over the ledger. -/
noncomputable def MakeStaticObstacleDecision (cfg : Config)
    (refLine : ℝ → ReferencePoint) (adc : SLBoundary)
    (path : List FrenetFramePoint) (ledger : List PathObstacle) :
    Bool × List PathObstacle :=
  if path.isEmpty then (false, ledger)
  else (true, ledger.map (decideObstacle cfg refLine adc path))

/-- `PathDecider::MakeObjectDecision` (lines 61–69). -/
noncomputable def MakeObjectDecision (cfg : Config)
    (refLine : ℝ → ReferencePoint) (adc : SLBoundary)
    (path : List FrenetFramePoint) (ledger : List PathObstacle) :
    Bool × List PathObstacle :=
  MakeStaticObstacleDecision cfg refLine adc path ledger

/-- The status returned by `PathDecider::Process`. -/
inductive Status
  | ok
  | planningError (msg : String)

/-- `PathDecider::Process` (lines 51–59): a failed decision pass becomes a
`PLANNING_ERROR` status; the (possibly updated) ledger is returned
alongside. -/
noncomputable def Process (cfg : Config) (refLine : ℝ → ReferencePoint)
    (adc : SLBoundary) (path : List FrenetFramePoint)
    (ledger : List PathObstacle) : Status × List PathObstacle :=
  if (MakeObjectDecision cfg refLine adc path ledger).1 = true then
    (Status.ok, (MakeObjectDecision cfg refLine adc path ledger).2)
  else
    (Status.planningError "dp_road_graph decision ",
      (MakeObjectDecision cfg refLine adc path ledger).2)

end PathDecider

open PathDecider

/-- C9: if the path is empty, `Process` fails with a planning-stage error and
the ledger is returned exactly as it was: no decision is written. -/
theorem c9_empty_path_error (cfg : Config) (refLine : ℝ → ReferencePoint)
    (adc : SLBoundary) (ledger : List PathObstacle) :
    Process cfg refLine adc [] ledger =
      (Status.planningError "dp_road_graph decision ", ledger) := rfl

/-- C6: an obstacle whose ledger record already holds a longitudinal `Stop`
is skipped outright: both of its decision slots (indeed its whole record)
are exactly the same after `decideObstacle` as before. -/
theorem c6_existing_stop_untouched (cfg : Config)
    (refLine : ℝ → ReferencePoint) (adc : SLBoundary)
    (path : List FrenetFramePoint) (ob : PathObstacle)
    (hstatic : ob.isStatic = true)
    (h : decisionIsStop ob.longitudinalDecision = true) :
    decideObstacle cfg refLine adc path ob = ob := by
  have hig : decisionIsIgnore ob.longitudinalDecision = false := by
    cases hl : ob.longitudinalDecision with
    | none => rw [hl] at h; exact absurd h (by simp [decisionIsStop])
    | some d => cases d <;> simp_all [decisionIsIgnore, decisionIsStop]
  simp [decideObstacle, hstatic, hig, h]

/-- Witness for C6 at a concrete input. -/
theorem c6_existing_stop_untouched_witness :
    ((⟨"OB", true, BoundaryType.UNKNOWN, ⟨0, 0, 0, 1⟩,
        some (ObjectDecisionType.stop
          ⟨StopReasonCode.STOP_REASON_OBSTACLE, none, none⟩),
        none⟩ : PathObstacle).isStatic = true ∧
      decisionIsStop (⟨"OB", true, BoundaryType.UNKNOWN, ⟨0, 0, 0, 1⟩,
        some (ObjectDecisionType.stop
          ⟨StopReasonCode.STOP_REASON_OBSTACLE, none, none⟩),
        none⟩ : PathObstacle).longitudinalDecision = true) ∧
    decideObstacle ⟨2, 5, 1/2, 3/10, true, 1/2, "DEST", 1, 10, 6⟩
        (fun _ => ⟨0, 0, 0⟩) ⟨0, 0, 0, 0⟩ [⟨0, 0⟩]
        ⟨"OB", true, BoundaryType.UNKNOWN, ⟨0, 0, 0, 1⟩,
          some (ObjectDecisionType.stop
            ⟨StopReasonCode.STOP_REASON_OBSTACLE, none, none⟩),
          none⟩ =
      ⟨"OB", true, BoundaryType.UNKNOWN, ⟨0, 0, 0, 1⟩,
        some (ObjectDecisionType.stop
          ⟨StopReasonCode.STOP_REASON_OBSTACLE, none, none⟩),
        none⟩ :=
  ⟨⟨rfl, rfl⟩,
    c6_existing_stop_untouched _ _ _ _ _ rfl rfl⟩

/-- C8: an obstacle tagged `KEEP_CLEAR` receives no decision from this
policy: its record is unchanged by `decideObstacle`. -/
theorem c8_keep_clear_untouched (cfg : Config)
    (refLine : ℝ → ReferencePoint) (adc : SLBoundary)
    (path : List FrenetFramePoint) (ob : PathObstacle)
    (h : ob.boundaryType = BoundaryType.KEEP_CLEAR) :
    decideObstacle cfg refLine adc path ob = ob := by
  by_cases h1 : ob.isStatic = false
  · simp [decideObstacle, h1]
  · by_cases h2 : decisionIsIgnore ob.longitudinalDecision = true ∧
        decisionIsIgnore ob.lateralDecision = true
    · simp [decideObstacle, h1, h2]
    · by_cases h3 : decisionIsStop ob.longitudinalDecision = true
      · simp [decideObstacle, h1, h2, h3]
      · simp [decideObstacle, h1, h2, h3, h]

/-- Witness for C8 at a concrete input. -/
theorem c8_keep_clear_untouched_witness :
    ((⟨"OB", true, BoundaryType.KEEP_CLEAR, ⟨0, 0, 0, 1⟩, none, none⟩ :
        PathObstacle).boundaryType = BoundaryType.KEEP_CLEAR) ∧
    decideObstacle ⟨2, 5, 1/2, 3/10, true, 1/2, "DEST", 1, 10, 6⟩
        (fun _ => ⟨0, 0, 0⟩) ⟨0, 0, 0, 0⟩ [⟨0, 0⟩]
        ⟨"OB", true, BoundaryType.KEEP_CLEAR, ⟨0, 0, 0, 1⟩, none, none⟩ =
      ⟨"OB", true, BoundaryType.KEEP_CLEAR, ⟨0, 0, 0, 1⟩, none, none⟩ :=
  ⟨rfl, c8_keep_clear_untouched _ _ _ _ _ rfl⟩

/-- C5: a static obstacle that passes the staticness / already-decided /
keep-clear filters and whose `start_s` lies outside
`[frontS path, backS path]` gets `Ignore` written to both axes. -/
theorem c5_outside_span_ignore_both (cfg : Config)
    (refLine : ℝ → ReferencePoint) (adc : SLBoundary)
    (path : List FrenetFramePoint) (ob : PathObstacle)
    (h1 : ob.isStatic = true)
    (h2 : ¬(decisionIsIgnore ob.longitudinalDecision = true ∧
        decisionIsIgnore ob.lateralDecision = true))
    (h3 : decisionIsStop ob.longitudinalDecision = false)
    (h4 : ob.boundaryType ≠ BoundaryType.KEEP_CLEAR)
    (h5 : ob.perceptionSlBoundary.start_s < frontS path ∨
        backS path < ob.perceptionSlBoundary.start_s) :
    (decideObstacle cfg refLine adc path ob).longitudinalDecision =
        some ObjectDecisionType.ignore ∧
      (decideObstacle cfg refLine adc path ob).lateralDecision =
        some ObjectDecisionType.ignore := by
  simp [decideObstacle, h1, h2, h3, h4, h5]

/-- Witness for C5 at a concrete input (path spans `[0, 0]`, obstacle front
edge at `s = 5`). -/
theorem c5_outside_span_ignore_both_witness :
    ((⟨"OB", true, BoundaryType.UNKNOWN, ⟨5, 6, 0, 1⟩, none, none⟩ :
          PathObstacle).isStatic = true ∧
      ¬(decisionIsIgnore (⟨"OB", true, BoundaryType.UNKNOWN, ⟨5, 6, 0, 1⟩,
            none, none⟩ : PathObstacle).longitudinalDecision = true ∧
        decisionIsIgnore (⟨"OB", true, BoundaryType.UNKNOWN, ⟨5, 6, 0, 1⟩,
            none, none⟩ : PathObstacle).lateralDecision = true) ∧
      decisionIsStop (⟨"OB", true, BoundaryType.UNKNOWN, ⟨5, 6, 0, 1⟩,
          none, none⟩ : PathObstacle).longitudinalDecision = false ∧
      (⟨"OB", true, BoundaryType.UNKNOWN, ⟨5, 6, 0, 1⟩, none, none⟩ :
          PathObstacle).boundaryType ≠ BoundaryType.KEEP_CLEAR ∧
      ((5:ℚ) < frontS [⟨0, 0⟩] ∨ backS [⟨0, 0⟩] < (5:ℚ))) ∧
    ((decideObstacle ⟨2, 5, 1/2, 3/10, true, 1/2, "DEST", 1, 10, 6⟩
          (fun _ => ⟨0, 0, 0⟩) ⟨0, 0, 0, 0⟩ [⟨0, 0⟩]
          ⟨"OB", true, BoundaryType.UNKNOWN, ⟨5, 6, 0, 1⟩, none,
            none⟩).longitudinalDecision = some ObjectDecisionType.ignore ∧
      (decideObstacle ⟨2, 5, 1/2, 3/10, true, 1/2, "DEST", 1, 10, 6⟩
          (fun _ => ⟨0, 0, 0⟩) ⟨0, 0, 0, 0⟩ [⟨0, 0⟩]
          ⟨"OB", true, BoundaryType.UNKNOWN, ⟨5, 6, 0, 1⟩, none,
            none⟩).lateralDecision = some ObjectDecisionType.ignore) := by
  refine ⟨⟨rfl, by decide, rfl, by decide, by decide⟩, ?_⟩
  exact c5_outside_span_ignore_both _ _ _ _ _ rfl (by decide) rfl (by decide)
    (by decide)

/-- C10: a static obstacle taking the stop branch gets only the longitudinal
`Stop` decision; its lateral slot is left exactly as it was. -/
theorem c10_stop_branch_lateral_untouched (cfg : Config)
    (refLine : ℝ → ReferencePoint) (adc : SLBoundary)
    (path : List FrenetFramePoint) (ob : PathObstacle)
    (h1 : ob.isStatic = true)
    (h2 : ¬(decisionIsIgnore ob.longitudinalDecision = true ∧
        decisionIsIgnore ob.lateralDecision = true))
    (h3 : decisionIsStop ob.longitudinalDecision = false)
    (h4 : ob.boundaryType ≠ BoundaryType.KEEP_CLEAR)
    (h5 : ¬(ob.perceptionSlBoundary.start_s < frontS path ∨
        backS path < ob.perceptionSlBoundary.start_s))
    (h6 : ¬(EvaluateByS path ob.perceptionSlBoundary.start_s -
          lateralRadius cfg > ob.perceptionSlBoundary.end_l ∨
        EvaluateByS path ob.perceptionSlBoundary.start_s +
          lateralRadius cfg < ob.perceptionSlBoundary.start_l))
    (h7 : EvaluateByS path ob.perceptionSlBoundary.start_s -
          lateralStopRadius cfg < ob.perceptionSlBoundary.end_l ∧
        EvaluateByS path ob.perceptionSlBoundary.start_s +
          lateralStopRadius cfg > ob.perceptionSlBoundary.start_l) :
    (decideObstacle cfg refLine adc path ob).lateralDecision =
        ob.lateralDecision ∧
      (decideObstacle cfg refLine adc path ob).longitudinalDecision =
        some (ObjectDecisionType.stop
          (GenerateObjectStopDecision cfg refLine adc ob)) := by
  simp [decideObstacle, h1, h2, h3, h4, h5, h6, h7]

/-- Witness for C10 at a concrete input (flat path at `l = 0`, obstacle box
`[-1/5, 1/5]` intruding into the stop corridor; prior lateral slot holds a
left nudge, which must be preserved). -/
theorem c10_stop_branch_lateral_untouched_witness :
    ((⟨"OB", true, BoundaryType.UNKNOWN, ⟨0, 0, -1/5, 1/5⟩, none,
          some (ObjectDecisionType.nudge ⟨NudgeType.LEFT_NUDGE, 1/2⟩)⟩ :
          PathObstacle).isStatic = true ∧
      ((0:ℚ) - lateralStopRadius ⟨2, 5, 1/2, 3/10, true, 1/2, "DEST", 1, 10, 6⟩
          < (1/5 : ℚ) ∧
        (0:ℚ) + lateralStopRadius ⟨2, 5, 1/2, 3/10, true, 1/2, "DEST", 1, 10, 6⟩
          > (-1/5 : ℚ))) ∧
    ((decideObstacle ⟨2, 5, 1/2, 3/10, true, 1/2, "DEST", 1, 10, 6⟩
          (fun _ => ⟨0, 0, 0⟩) ⟨0, 0, 0, 0⟩ [⟨0, 0⟩]
          ⟨"OB", true, BoundaryType.UNKNOWN, ⟨0, 0, -1/5, 1/5⟩, none,
            some (ObjectDecisionType.nudge
              ⟨NudgeType.LEFT_NUDGE, 1/2⟩)⟩).lateralDecision =
        (⟨"OB", true, BoundaryType.UNKNOWN, ⟨0, 0, -1/5, 1/5⟩, none,
          some (ObjectDecisionType.nudge ⟨NudgeType.LEFT_NUDGE, 1/2⟩)⟩ :
          PathObstacle).lateralDecision ∧
      (decideObstacle ⟨2, 5, 1/2, 3/10, true, 1/2, "DEST", 1, 10, 6⟩
          (fun _ => ⟨0, 0, 0⟩) ⟨0, 0, 0, 0⟩ [⟨0, 0⟩]
          ⟨"OB", true, BoundaryType.UNKNOWN, ⟨0, 0, -1/5, 1/5⟩, none,
            some (ObjectDecisionType.nudge
              ⟨NudgeType.LEFT_NUDGE, 1/2⟩)⟩).longitudinalDecision =
        some (ObjectDecisionType.stop
          (GenerateObjectStopDecision
            ⟨2, 5, 1/2, 3/10, true, 1/2, "DEST", 1, 10, 6⟩
            (fun _ => ⟨0, 0, 0⟩) ⟨0, 0, 0, 0⟩
            ⟨"OB", true, BoundaryType.UNKNOWN, ⟨0, 0, -1/5, 1/5⟩, none,
              some (ObjectDecisionType.nudge
                ⟨NudgeType.LEFT_NUDGE, 1/2⟩)⟩))) := by
  refine ⟨⟨rfl, by norm_num [PathDecider.lateralStopRadius],
    by norm_num [PathDecider.lateralStopRadius]⟩, ?_⟩
  exact c10_stop_branch_lateral_untouched _ _ _ _ _ rfl (by decide) rfl
    (by decide) (by norm_num [frontS, backS])
    (by norm_num [EvaluateByS, PathDecider.lateralRadius])
    (by norm_num [EvaluateByS, PathDecider.lateralStopRadius])

/-- C7: when the obstacle carries the configured destination identity, the
stop decision has reason `STOP_REASON_DESTINATION` and its `distance_s` is
the negated configured `stop_distance_destination` (the turning-radius
calculator plays no part in the value). -/
theorem c7_destination_stop (cfg : Config) (refLine : ℝ → ReferencePoint)
    (adc : SLBoundary) (ob : PathObstacle)
    (h : ob.id = cfg.destinationObstacleId) :
    (GenerateObjectStopDecision cfg refLine adc ob).reason_code =
        StopReasonCode.STOP_REASON_DESTINATION ∧
      (GenerateObjectStopDecision cfg refLine adc ob).distance_s =
        some (-(cfg.stopDistanceDestination : ℝ)) := by
  simp [GenerateObjectStopDecision, h]

/-- Witness for C7 at a concrete input. -/
theorem c7_destination_stop_witness :
    ((⟨"DEST", true, BoundaryType.UNKNOWN, ⟨0, 0, 0, 1⟩, none, none⟩ :
        PathObstacle).id =
      (⟨2, 5, 1/2, 3/10, true, 1/2, "DEST", 1, 10, 6⟩ :
        Config).destinationObstacleId) ∧
    ((GenerateObjectStopDecision ⟨2, 5, 1/2, 3/10, true, 1/2, "DEST", 1, 10, 6⟩
          (fun _ => ⟨0, 0, 0⟩) ⟨0, 0, 0, 0⟩
          ⟨"DEST", true, BoundaryType.UNKNOWN, ⟨0, 0, 0, 1⟩, none,
            none⟩).reason_code = StopReasonCode.STOP_REASON_DESTINATION ∧
      (GenerateObjectStopDecision ⟨2, 5, 1/2, 3/10, true, 1/2, "DEST", 1, 10, 6⟩
          (fun _ => ⟨0, 0, 0⟩) ⟨0, 0, 0, 0⟩
          ⟨"DEST", true, BoundaryType.UNKNOWN, ⟨0, 0, 0, 1⟩, none,
            none⟩).distance_s = some (-((1:ℚ) : ℝ))) :=
  ⟨rfl, c7_destination_stop _ _ _ _ rfl⟩

/-- C4 (counterexample): a right nudge is emitted although the obstacle lies
entirely on the vehicle's right.  With the planned lateral position
`curr_l = 0`, `lateral_stop_radius = 13/10` and an obstacle box
`[start_l, end_l] = [-2, -13/10]`, the obstacle's top edge touches the stop
corridor exactly (`end_l = curr_l - lateral_stop_radius`), so neither the
stop branch (strict `<`) nor the left-nudge branch (strict `>`) fires and
the remaining case writes `Nudge{Right}` — yet
`curr_l + lateral_stop_radius ≤ start_l` fails. -/
theorem c4_counterexample :
    (decideObstacle ⟨2, 5, 1/2, 3/10, true, 1/2, "DEST", 1, 10, 6⟩
        (fun _ => ⟨0, 0, 0⟩) ⟨0, 0, 0, 0⟩ [⟨0, 0⟩]
        ⟨"OB", true, BoundaryType.UNKNOWN, ⟨0, 0, -2, -13/10⟩, none,
          none⟩).lateralDecision =
      some (ObjectDecisionType.nudge ⟨NudgeType.RIGHT_NUDGE, -(1/2)⟩) ∧
    ¬(EvaluateByS [⟨0, 0⟩] (0:ℚ) +
        lateralStopRadius ⟨2, 5, 1/2, 3/10, true, 1/2, "DEST", 1, 10, 6⟩ ≤
      (-2 : ℚ)) := by
  constructor
  · simp only [decideObstacle]
    rw [if_neg (by norm_num), if_neg (by decide), if_neg (by decide),
      if_neg (by decide), if_neg (by norm_num [frontS, backS]),
      if_neg (by norm_num [EvaluateByS, PathDecider.lateralRadius]),
      if_neg (by norm_num [EvaluateByS, PathDecider.lateralStopRadius]),
      if_neg (by norm_num [EvaluateByS, PathDecider.lateralStopRadius]),
      if_pos (by norm_num)]
  · norm_num [EvaluateByS, PathDecider.lateralStopRadius]

/-- C4 (amended): whenever the right-nudge branch fires, the obstacle either
lies entirely to the vehicle's left
(`curr_l + lateral_stop_radius ≤ start_l`) or touches the stop corridor from
the right exactly (`end_l = curr_l - lateral_stop_radius`); in that boundary
case the right nudge is emitted for an obstacle on the vehicle's right. -/
theorem c4_right_nudge_cases (cfg : Config) (refLine : ℝ → ReferencePoint)
    (adc : SLBoundary) (path : List FrenetFramePoint) (ob : PathObstacle)
    (h1 : ob.isStatic = true)
    (h2 : ¬(decisionIsIgnore ob.longitudinalDecision = true ∧
        decisionIsIgnore ob.lateralDecision = true))
    (h3 : decisionIsStop ob.longitudinalDecision = false)
    (h4 : ob.boundaryType ≠ BoundaryType.KEEP_CLEAR)
    (h5 : ¬(ob.perceptionSlBoundary.start_s < frontS path ∨
        backS path < ob.perceptionSlBoundary.start_s))
    (h6 : ¬(EvaluateByS path ob.perceptionSlBoundary.start_s -
          lateralRadius cfg > ob.perceptionSlBoundary.end_l ∨
        EvaluateByS path ob.perceptionSlBoundary.start_s +
          lateralRadius cfg < ob.perceptionSlBoundary.start_l))
    (h7 : ¬(EvaluateByS path ob.perceptionSlBoundary.start_s -
          lateralStopRadius cfg < ob.perceptionSlBoundary.end_l ∧
        EvaluateByS path ob.perceptionSlBoundary.start_s +
          lateralStopRadius cfg > ob.perceptionSlBoundary.start_l))
    (h8 : cfg.enableNudgeDecision = true)
    (h9 : ¬(cfg.enableNudgeDecision = true ∧
        EvaluateByS path ob.perceptionSlBoundary.start_s -
          lateralStopRadius cfg > ob.perceptionSlBoundary.end_l)) :
    (decideObstacle cfg refLine adc path ob).lateralDecision =
        some (ObjectDecisionType.nudge
          ⟨NudgeType.RIGHT_NUDGE, -cfg.nudgeDistanceObstacle⟩) ∧
      (EvaluateByS path ob.perceptionSlBoundary.start_s +
          lateralStopRadius cfg ≤ ob.perceptionSlBoundary.start_l ∨
        ob.perceptionSlBoundary.end_l =
          EvaluateByS path ob.perceptionSlBoundary.start_s -
            lateralStopRadius cfg) := by
  have h9' : ¬(ob.perceptionSlBoundary.end_l <
      EvaluateByS path ob.perceptionSlBoundary.start_s -
        lateralStopRadius cfg) :=
    fun hc => h9 ⟨h8, hc⟩
  constructor
  · simp [decideObstacle, h1, h2, h3, h4, h5, h6, h7, h8, h9']
  · by_cases hA : EvaluateByS path ob.perceptionSlBoundary.start_s -
        lateralStopRadius cfg < ob.perceptionSlBoundary.end_l
    · left
      have hB : ¬(ob.perceptionSlBoundary.start_l <
          EvaluateByS path ob.perceptionSlBoundary.start_s +
            lateralStopRadius cfg) :=
        fun hc => h7 ⟨hA, hc⟩
      exact not_lt.mp hB
    · right
      exact le_antisymm (not_lt.mp hA) (not_lt.mp h9')

/-- Witness for the amended C4 at the concrete boundary input. -/
theorem c4_right_nudge_cases_witness :
    (¬(EvaluateByS [⟨0, 0⟩]
          (⟨"OB2", true, BoundaryType.UNKNOWN, ⟨0, 0, -2, -13/10⟩, none,
            none⟩ : PathObstacle).perceptionSlBoundary.start_s -
          lateralStopRadius ⟨2, 5, 1/2, 3/10, true, 1/2, "DEST", 1, 10, 6⟩ <
        (⟨"OB2", true, BoundaryType.UNKNOWN, ⟨0, 0, -2, -13/10⟩, none,
          none⟩ : PathObstacle).perceptionSlBoundary.end_l ∧
        EvaluateByS [⟨0, 0⟩]
          (⟨"OB2", true, BoundaryType.UNKNOWN, ⟨0, 0, -2, -13/10⟩, none,
            none⟩ : PathObstacle).perceptionSlBoundary.start_s +
          lateralStopRadius ⟨2, 5, 1/2, 3/10, true, 1/2, "DEST", 1, 10, 6⟩ >
        (⟨"OB2", true, BoundaryType.UNKNOWN, ⟨0, 0, -2, -13/10⟩, none,
          none⟩ : PathObstacle).perceptionSlBoundary.start_l)) ∧
    ((decideObstacle ⟨2, 5, 1/2, 3/10, true, 1/2, "DEST", 1, 10, 6⟩
          (fun _ => ⟨0, 0, 0⟩) ⟨0, 0, 0, 0⟩ [⟨0, 0⟩]
          ⟨"OB2", true, BoundaryType.UNKNOWN, ⟨0, 0, -2, -13/10⟩, none,
            none⟩).lateralDecision =
        some (ObjectDecisionType.nudge
          ⟨NudgeType.RIGHT_NUDGE,
            -(⟨2, 5, 1/2, 3/10, true, 1/2, "DEST", 1, 10, 6⟩ :
              Config).nudgeDistanceObstacle⟩) ∧
      (EvaluateByS [⟨0, 0⟩]
          (⟨"OB2", true, BoundaryType.UNKNOWN, ⟨0, 0, -2, -13/10⟩, none,
            none⟩ : PathObstacle).perceptionSlBoundary.start_s +
          lateralStopRadius ⟨2, 5, 1/2, 3/10, true, 1/2, "DEST", 1, 10, 6⟩ ≤
        (⟨"OB2", true, BoundaryType.UNKNOWN, ⟨0, 0, -2, -13/10⟩, none,
          none⟩ : PathObstacle).perceptionSlBoundary.start_l ∨
        (⟨"OB2", true, BoundaryType.UNKNOWN, ⟨0, 0, -2, -13/10⟩, none,
          none⟩ : PathObstacle).perceptionSlBoundary.end_l =
        EvaluateByS [⟨0, 0⟩]
          (⟨"OB2", true, BoundaryType.UNKNOWN, ⟨0, 0, -2, -13/10⟩, none,
            none⟩ : PathObstacle).perceptionSlBoundary.start_s -
          lateralStopRadius ⟨2, 5, 1/2, 3/10, true, 1/2, "DEST", 1, 10, 6⟩)) := by
  refine ⟨by norm_num [EvaluateByS, PathDecider.lateralStopRadius], ?_⟩
  exact c4_right_nudge_cases _ _ _ _ _ rfl (by decide) rfl (by decide)
    (by norm_num [frontS, backS])
    (by norm_num [EvaluateByS, PathDecider.lateralRadius])
    (by norm_num [EvaluateByS, PathDecider.lateralStopRadius]) rfl
    (by norm_num [EvaluateByS, PathDecider.lateralStopRadius])

/-- C1: the code performs no clamp of `lateral_diff` to the turn radius.
At `min_turn_radius = 1`, `vehicle_width = 1`, ADC boundary all-zero and an
obstacle box with lateral extent `[0, 4]`, the clamped `lateral_diff` is `4`,
the radicand is `1 - 9 = -8 < 0`, and `MinimumRadiusStopDistance` returns a
NaN (modelled `none`) instead of a finite distance. -/
theorem c1_negative_radicand_gives_nan :
    MinimumRadiusStopDistance ⟨1, 1, 1/2, 3/10, true, 1/2, "DEST", 1, 10, 6⟩
        ⟨0, 0, 0, 0⟩
        ⟨"OB", true, BoundaryType.UNKNOWN, ⟨0, 0, 0, 4⟩, none, none⟩ =
      none := by
  have hr : radicand ⟨1, 1, 1/2, 3/10, true, 1/2, "DEST", 1, 10, 6⟩
      ⟨0, 0, 0, 0⟩
      ⟨"OB", true, BoundaryType.UNKNOWN, ⟨0, 0, 0, 4⟩, none, none⟩ = -8 := by
    norm_num [radicand, PathDecider.lateralDiff]
  simp only [MinimumRadiusStopDistance, hr]
  norm_num

/-- C2 (counterexample): with `R = 2`, width `1`, clamp bounds `[0, 100]`,
the obstacle with lateral extent `[0, 2]` yields clamped `lateral_diff = 2`
and stop distance `5/2`, while the wider obstacle with extent `[0, 3]`
yields `lateral_diff = 3` but the *smaller* stop distance `√3 + 1/2`:
the function is not monotonically non-decreasing in `lateral_diff`. -/
theorem c2_counterexample :
    lateralDiff ⟨1, 2, 1/2, 3/10, true, 1/2, "DEST", 1, 100, 0⟩ ⟨0, 0, 0, 0⟩
        ⟨"OB", true, BoundaryType.UNKNOWN, ⟨0, 0, 0, 2⟩, none, none⟩ ≤
      lateralDiff ⟨1, 2, 1/2, 3/10, true, 1/2, "DEST", 1, 100, 0⟩ ⟨0, 0, 0, 0⟩
        ⟨"OB", true, BoundaryType.UNKNOWN, ⟨0, 0, 0, 3⟩, none, none⟩ ∧
    MinimumRadiusStopDistance ⟨1, 2, 1/2, 3/10, true, 1/2, "DEST", 1, 100, 0⟩
        ⟨0, 0, 0, 0⟩
        ⟨"OB", true, BoundaryType.UNKNOWN, ⟨0, 0, 0, 2⟩, none, none⟩ =
      some (5/2) ∧
    MinimumRadiusStopDistance ⟨1, 2, 1/2, 3/10, true, 1/2, "DEST", 1, 100, 0⟩
        ⟨0, 0, 0, 0⟩
        ⟨"OB", true, BoundaryType.UNKNOWN, ⟨0, 0, 0, 3⟩, none, none⟩ =
      some (Real.sqrt 3 + 1/2) ∧
    Real.sqrt 3 + 1/2 < 5/2 := by
  have hs3 : Real.sqrt 3 < 2 := by
    rw [Real.sqrt_lt' (by norm_num : (0:ℝ) < 2)]
    norm_num
  refine ⟨by norm_num [PathDecider.lateralDiff], ?_, ?_, by linarith⟩
  · have hr : radicand ⟨1, 2, 1/2, 3/10, true, 1/2, "DEST", 1, 100, 0⟩
        ⟨0, 0, 0, 0⟩
        ⟨"OB", true, BoundaryType.UNKNOWN, ⟨0, 0, 0, 2⟩, none, none⟩ = 4 := by
      norm_num [radicand, PathDecider.lateralDiff]
    simp only [MinimumRadiusStopDistance, hr]
    rw [if_neg (by norm_num)]
    have h4 : Real.sqrt ((4:ℚ) : ℝ) = 2 := by
      rw [show ((4:ℚ) : ℝ) = (2:ℝ) ^ 2 by norm_num]
      exact Real.sqrt_sq (by norm_num)
    rw [h4]
    norm_num
  · have hr : radicand ⟨1, 2, 1/2, 3/10, true, 1/2, "DEST", 1, 100, 0⟩
        ⟨0, 0, 0, 0⟩
        ⟨"OB", true, BoundaryType.UNKNOWN, ⟨0, 0, 0, 3⟩, none, none⟩ = 3 := by
      norm_num [radicand, PathDecider.lateralDiff]
    simp only [MinimumRadiusStopDistance, hr]
    rw [if_neg (by norm_num)]
    have hc : ((3:ℚ) : ℝ) = (3:ℝ) := by norm_num
    rw [hc]
    have hmin : min ((100:ℚ) : ℝ) (Real.sqrt 3 + 1/2) =
        Real.sqrt 3 + 1/2 := by
      rw [min_eq_right]
      push_cast
      linarith
    have hmax : max ((0:ℚ) : ℝ) (Real.sqrt 3 + 1/2) = Real.sqrt 3 + 1/2 := by
      rw [max_eq_right]
      push_cast
      positivity
    rw [hmin, hmax]

/-- C2 (amended): `MinimumRadiusStopDistance` is monotonically non-decreasing
in the clamped `lateral_diff` as long as the larger clamped lateral
separation does not exceed the minimum turn radius (beyond which the
radicand `R² - (R - d)²` decreases in `d`): for two obstacles with
`0 ≤ d₁ ≤ d₂ ≤ R` and all other inputs equal, both calls return finite
values `v₁ ≤ v₂`. -/
theorem c2_monotone_below_radius (cfg : Config) (adc : SLBoundary)
    (ob1 ob2 : PathObstacle)
    (h0 : 0 ≤ lateralDiff cfg adc ob1)
    (h12 : lateralDiff cfg adc ob1 ≤ lateralDiff cfg adc ob2)
    (h2R : lateralDiff cfg adc ob2 ≤ cfg.minTurnRadius) :
    ∃ v1 v2 : ℝ,
      MinimumRadiusStopDistance cfg adc ob1 = some v1 ∧
      MinimumRadiusStopDistance cfg adc ob2 = some v2 ∧
      v1 ≤ v2 := by
  have hr1 : 0 ≤ radicand cfg adc ob1 := by
    simp only [radicand]
    nlinarith
  have hr2 : 0 ≤ radicand cfg adc ob2 := by
    simp only [radicand]
    nlinarith
  have hrle : radicand cfg adc ob1 ≤ radicand cfg adc ob2 := by
    simp only [radicand]
    nlinarith
  have e1 : MinimumRadiusStopDistance cfg adc ob1 =
      some (max (cfg.minStopDistanceObstacle : ℝ)
        (min (cfg.maxStopDistanceObstacle : ℝ)
          (Real.sqrt ((radicand cfg adc ob1 : ℚ) : ℝ) + 1/2))) := by
    simp only [MinimumRadiusStopDistance]
    rw [if_neg (not_lt.mpr hr1)]
  have e2 : MinimumRadiusStopDistance cfg adc ob2 =
      some (max (cfg.minStopDistanceObstacle : ℝ)
        (min (cfg.maxStopDistanceObstacle : ℝ)
          (Real.sqrt ((radicand cfg adc ob2 : ℚ) : ℝ) + 1/2))) := by
    simp only [MinimumRadiusStopDistance]
    rw [if_neg (not_lt.mpr hr2)]
  refine ⟨_, _, e1, e2, ?_⟩
  have hs : Real.sqrt ((radicand cfg adc ob1 : ℚ) : ℝ) ≤
      Real.sqrt ((radicand cfg adc ob2 : ℚ) : ℝ) :=
    Real.sqrt_le_sqrt (by exact_mod_cast hrle)
  exact max_le_max le_rfl (min_le_min le_rfl (add_le_add_right hs _))

/-- Witness for the amended C2 at concrete inputs: `R = 2`, clamped
separations `d₁ = 1 ≤ d₂ = 2 ≤ R`. -/
theorem c2_monotone_below_radius_witness :
    ((0:ℚ) ≤ lateralDiff ⟨1, 2, 1/2, 3/10, true, 1/2, "DEST", 1, 100, 0⟩
        ⟨0, 0, 0, 0⟩
        ⟨"OB", true, BoundaryType.UNKNOWN, ⟨0, 0, 0, 1⟩, none, none⟩ ∧
      lateralDiff ⟨1, 2, 1/2, 3/10, true, 1/2, "DEST", 1, 100, 0⟩
        ⟨0, 0, 0, 0⟩
        ⟨"OB", true, BoundaryType.UNKNOWN, ⟨0, 0, 0, 1⟩, none, none⟩ ≤
      lateralDiff ⟨1, 2, 1/2, 3/10, true, 1/2, "DEST", 1, 100, 0⟩
        ⟨0, 0, 0, 0⟩
        ⟨"OB2", true, BoundaryType.UNKNOWN, ⟨0, 0, 0, 2⟩, none, none⟩ ∧
      lateralDiff ⟨1, 2, 1/2, 3/10, true, 1/2, "DEST", 1, 100, 0⟩
        ⟨0, 0, 0, 0⟩
        ⟨"OB2", true, BoundaryType.UNKNOWN, ⟨0, 0, 0, 2⟩, none, none⟩ ≤
      (⟨1, 2, 1/2, 3/10, true, 1/2, "DEST", 1, 100, 0⟩ :
        Config).minTurnRadius) ∧
    (∃ v1 v2 : ℝ,
      MinimumRadiusStopDistance ⟨1, 2, 1/2, 3/10, true, 1/2, "DEST", 1, 100, 0⟩
        ⟨0, 0, 0, 0⟩
        ⟨"OB", true, BoundaryType.UNKNOWN, ⟨0, 0, 0, 1⟩, none, none⟩ =
        some v1 ∧
      MinimumRadiusStopDistance ⟨1, 2, 1/2, 3/10, true, 1/2, "DEST", 1, 100, 0⟩
        ⟨0, 0, 0, 0⟩
        ⟨"OB2", true, BoundaryType.UNKNOWN, ⟨0, 0, 0, 2⟩, none, none⟩ =
        some v2 ∧
      v1 ≤ v2) := by
  refine ⟨⟨by norm_num [PathDecider.lateralDiff],
    by norm_num [PathDecider.lateralDiff],
    by norm_num [PathDecider.lateralDiff]⟩, ?_⟩
  exact c2_monotone_below_radius _ _ _ _
    (by norm_num [PathDecider.lateralDiff])
    (by norm_num [PathDecider.lateralDiff])
    (by norm_num [PathDecider.lateralDiff])

/-- C3 (counterexample): with `min_turn_radius = 1 > 0` but clamp bounds
`min_stop_distance = 5 > max_stop_distance = 1`, the function returns `5`
(the `max` clamp is applied last), which does not lie within
`[min_stop_distance, max_stop_distance] = [5, 1]` since `5 ≤ 1` fails. -/
theorem c3_counterexample :
    MinimumRadiusStopDistance ⟨1, 1, 1/2, 3/10, true, 1/2, "DEST", 1, 1, 5⟩
        ⟨0, 0, 0, 0⟩
        ⟨"OB", true, BoundaryType.UNKNOWN, ⟨0, 0, 0, 0⟩, none, none⟩ =
      some 5 ∧
    ¬((5:ℝ) ≤ ((1:ℚ) : ℝ)) := by
  constructor
  · have hr : radicand ⟨1, 1, 1/2, 3/10, true, 1/2, "DEST", 1, 1, 5⟩
        ⟨0, 0, 0, 0⟩
        ⟨"OB", true, BoundaryType.UNKNOWN, ⟨0, 0, 0, 0⟩, none, none⟩ = 1 := by
      norm_num [radicand, PathDecider.lateralDiff]
    simp only [MinimumRadiusStopDistance, hr]
    rw [if_neg (by norm_num)]
    rw [show ((1:ℚ) : ℝ) = (1:ℝ) by norm_num, Real.sqrt_one]
    norm_num
  · norm_num

/-- C3 (amended): whenever `MinimumRadiusStopDistance` returns a finite
value (non-negative radicand; see C1 for the NaN case) and the configured
clamp bounds satisfy `0 < min_stop_distance ≤ max_stop_distance`, that value
lies within `[min_stop_distance, max_stop_distance]` and is strictly
positive. -/
theorem c3_clamped_range (cfg : Config) (adc : SLBoundary) (ob : PathObstacle)
    (v : ℝ)
    (hR : 0 < cfg.minTurnRadius)
    (hminpos : 0 < cfg.minStopDistanceObstacle)
    (hminmax : cfg.minStopDistanceObstacle ≤ cfg.maxStopDistanceObstacle)
    (hv : MinimumRadiusStopDistance cfg adc ob = some v) :
    ((cfg.minStopDistanceObstacle : ℝ) ≤ v ∧
      v ≤ (cfg.maxStopDistanceObstacle : ℝ)) ∧ 0 < v := by
  simp only [MinimumRadiusStopDistance] at hv
  split at hv
  · exact absurd hv (by simp)
  · have hv' := Option.some.inj hv
    rw [← hv']
    refine ⟨⟨le_max_left _ _, max_le (by exact_mod_cast hminmax)
      (min_le_left _ _)⟩, ?_⟩
    exact lt_of_lt_of_le (by exact_mod_cast hminpos) (le_max_left _ _)

/-- Witness for the amended C3 at a concrete input: bounds `[1, 2]`, value
`3/2`. -/
theorem c3_clamped_range_witness :
    ((0:ℚ) < (⟨1, 1, 1/2, 3/10, true, 1/2, "DEST", 1, 2, 1⟩ :
        Config).minTurnRadius ∧
      (0:ℚ) < (⟨1, 1, 1/2, 3/10, true, 1/2, "DEST", 1, 2, 1⟩ :
        Config).minStopDistanceObstacle ∧
      (⟨1, 1, 1/2, 3/10, true, 1/2, "DEST", 1, 2, 1⟩ :
        Config).minStopDistanceObstacle ≤
        (⟨1, 1, 1/2, 3/10, true, 1/2, "DEST", 1, 2, 1⟩ :
          Config).maxStopDistanceObstacle ∧
      MinimumRadiusStopDistance ⟨1, 1, 1/2, 3/10, true, 1/2, "DEST", 1, 2, 1⟩
        ⟨0, 0, 0, 0⟩
        ⟨"OB", true, BoundaryType.UNKNOWN, ⟨0, 0, 0, 0⟩, none, none⟩ =
        some (3/2)) ∧
    ((((1:ℚ) : ℝ) ≤ (3/2 : ℝ) ∧ (3/2 : ℝ) ≤ ((2:ℚ) : ℝ)) ∧
      (0:ℝ) < 3/2) := by
  have heval : MinimumRadiusStopDistance
      ⟨1, 1, 1/2, 3/10, true, 1/2, "DEST", 1, 2, 1⟩ ⟨0, 0, 0, 0⟩
      ⟨"OB", true, BoundaryType.UNKNOWN, ⟨0, 0, 0, 0⟩, none, none⟩ =
      some (3/2) := by
    have hr : radicand ⟨1, 1, 1/2, 3/10, true, 1/2, "DEST", 1, 2, 1⟩
        ⟨0, 0, 0, 0⟩
        ⟨"OB", true, BoundaryType.UNKNOWN, ⟨0, 0, 0, 0⟩, none, none⟩ = 1 := by
      norm_num [radicand, PathDecider.lateralDiff]
    simp only [MinimumRadiusStopDistance, hr]
    rw [if_neg (by norm_num)]
    rw [show ((1:ℚ) : ℝ) = (1:ℝ) by norm_num, Real.sqrt_one]
    norm_num
  exact ⟨⟨by norm_num, by norm_num, by norm_num, heval⟩,
    c3_clamped_range _ _ _ _ (by norm_num) (by norm_num) (by norm_num) heval⟩

end Apollo
